import Mathlib

/-!
Verification of the Spotify access layer of the Jukebox server
(token store, token guard middleware, upstream retry client, error-body
parsing, the two read-through caches, and the OAuth callback flow).

The JavaScript source is embedded shallowly: module-level mutable state
(`tokenData`, the two caches, `currentOAuthState`, `oauthCallbackPort`)
becomes explicit state passed in and returned; `Date.now()` becomes an
integer parameter `now` (milliseconds); each `fetch` to the upstream API
becomes an explicit outcome parameter (the response that attempt produced,
or the rejection it threw).  JavaScript truthiness on the string/number
fields involved is modelled explicitly (`strTruthy`, `intTruthy`), and
`null` coercing to 0 in arithmetic is modelled by `jsNum`.
-/

/-- Truthiness of a nullable JS string: `null` and `""` are falsy. -/
def strTruthy : Option String → Bool
  | none => false
  | some s => s ≠ ""

/-- Truthiness of a nullable JS number: `null` and `0` are falsy. -/
def intTruthy : Option Int → Bool
  | none => false
  | some v => v ≠ 0

/-- Numeric coercion of a nullable JS number: `null` coerces to 0
(the fields modelled here are never `undefined`). -/
def jsNum : Option Int → Int
  | none => 0
  | some v => v

/-- The module-level `tokenData` record: `accessToken`, `refreshToken`
(opaque strings or `null`) and `expiresAt` (ms timestamp or `null`). -/
structure TokenRecord where
  accessToken : Option String
  refreshToken : Option String
  expiresAt : Option Int
deriving DecidableEq, Repr

/-- The initial `tokenData` value: all three fields `null`. -/
def tokenDataInit : TokenRecord := ⟨none, none, none⟩

/-- `TOKEN_REFRESH_BUFFER_MS = 5 * MS_PER_MINUTE` (5 minutes in ms). -/
def TOKEN_REFRESH_BUFFER_MS : Int := 5 * (60 * 1000)

/-- `isAuthenticated()`:
`tokenData.accessToken && tokenData.expiresAt && Date.now() < tokenData.expiresAt`,
read as a boolean (the JS function returns the last truthy/falsy value). -/
def isAuthenticated (now : Int) (st : TokenRecord) : Bool :=
  strTruthy st.accessToken && (intTruthy st.expiresAt && decide (now < jsNum st.expiresAt))

/-- What the single upstream request inside `refreshAccessToken` came to:
the fetch rejected (or the success body failed to parse as JSON — both land
in the same `catch`), the token endpoint answered with a non-ok status, or
it answered ok with the parsed grant body (`access_token`, `expires_in`,
optional `refresh_token`). -/
inductive RefreshOutcome
  | netError
  | httpError (status : Nat)
  | ok (accessToken : String) (expiresIn : Int) (refreshToken : Option String)
deriving DecidableEq, Repr

/-- Result of `refreshAccessToken`: the returned boolean, the `tokenData`
state after the call, and how many requests were issued to the upstream
token endpoint. -/
structure RefreshResult where
  success : Bool
  st : TokenRecord
  upstreamCalls : Nat
deriving DecidableEq, Repr

/-- `refreshAccessToken()`.  Guard: `if (!tokenData.refreshToken) return false`
before any request.  On ok, assigns `accessToken` and `expiresAt`, and
overwrites `refreshToken` only when `data.refresh_token` is truthy. -/
def refreshAccessToken (now : Int) (st : TokenRecord) (resp : RefreshOutcome) :
    RefreshResult :=
  if !strTruthy st.refreshToken then ⟨false, st, 0⟩
  else
    match resp with
    | .netError => ⟨false, st, 1⟩
    | .httpError _ => ⟨false, st, 1⟩
    | .ok tok expiresIn newRefresh =>
        ⟨true,
         { accessToken := some tok
           refreshToken := if strTruthy newRefresh then newRefresh else st.refreshToken
           expiresAt := some (now + expiresIn * 1000) },
         1⟩

/-- The guard condition computed by `ensureToken`:
`Date.now() >= tokenData.expiresAt - TOKEN_REFRESH_BUFFER_MS`
(a `null` expiry coerces to 0). -/
def needsRefreshCheck (now : Int) (st : TokenRecord) : Bool :=
  decide (now ≥ jsNum st.expiresAt - TOKEN_REFRESH_BUFFER_MS)

/-- How `ensureToken` disposes of the request. -/
inductive EnsureResult
  | notAuthenticated
  | sessionExpired
  | proceed
deriving DecidableEq, Repr

/-- Result of the `ensureToken` middleware: the disposition, the `tokenData`
state afterwards, and how many times `refreshAccessToken` was invoked. -/
structure EnsureOutcome where
  result : EnsureResult
  st : TokenRecord
  refreshCalls : Nat
deriving DecidableEq, Repr

/-- The `ensureToken` middleware.  `resp` is the outcome the upstream token
endpoint would produce if a refresh request were issued. -/
def ensureToken (now : Int) (st : TokenRecord) (resp : RefreshOutcome) :
    EnsureOutcome :=
  if !strTruthy st.accessToken then ⟨.notAuthenticated, st, 0⟩
  else if needsRefreshCheck now st then
    let r := refreshAccessToken now st resp
    if !r.success then ⟨.sessionExpired, ⟨none, none, none⟩, 1⟩
    else ⟨.proceed, r.st, 1⟩
  else ⟨.proceed, st, 0⟩

/-! ## The upstream client `spotifyFetch` -/

/-- `needle.isPrefixOf`-based substring test: JS `haystack.includes(needle)`. -/
def listContainsSub (hay needle : List Char) : Bool :=
  if needle.isPrefixOf hay then true
  else
    match hay with
    | [] => false
    | _ :: t => listContainsSub t needle

/-- JS `s.includes(sub)`. -/
def jsIncludes (s sub : String) : Bool := listContainsSub s.toList sub.toList

/-- The error a rejected `fetch` attempt carried (`err.name`, `err.message`). -/
structure NetError where
  name : String
  message : String
deriving DecidableEq, Repr

/-- The retryability test in `spotifyFetch`'s catch block:
`err.name === 'AbortError' || err.message.includes('fetch failed') ||
err.message.includes('ECONNRESET') || err.message.includes('ETIMEDOUT')`. -/
def isRetryableError (e : NetError) : Bool :=
  e.name == "AbortError" || jsIncludes e.message "fetch failed"
    || jsIncludes e.message "ECONNRESET" || jsIncludes e.message "ETIMEDOUT"

/-- What one attempt inside the retry loop produced: a response with the
given status, or a rejection (timeout abort or network error). -/
inductive AttemptOutcome
  | resp (status : Nat)
  | netErr (e : NetError)
deriving DecidableEq, Repr

/-- `response.ok`: status in the range 200–299. -/
def isOkStatus (s : Nat) : Bool := 200 ≤ s && s ≤ 299

/-- The status-based retry test:
`status === 429 || status >= 500 || status === 408`. -/
def shouldRetryStatus (s : Nat) : Bool := s == 429 || 500 ≤ s || s == 408

/-- `const maxRetries = 3`. -/
def maxRetries : Nat := 3

/-- Backoff before the retry that follows attempt `attempt`:
`Math.pow(2, attempt) * 1000` ms. -/
def backoffDelayMs (attempt : Nat) : Nat := 2 ^ attempt * 1000

/-- How a whole `spotifyFetch` call ended: a returned response, a thrown
error, or the (unreachable) fall-through past the loop (JS `undefined`). -/
inductive FetchResult
  | response (status : Nat)
  | thrown (e : NetError)
  | undefinedReturn
deriving DecidableEq, Repr

/-- Trace of one logical `spotifyFetch` call: its result, how many attempts
were made, and the backoff delays (ms) waited between attempts, in order. -/
structure FetchTrace where
  result : FetchResult
  attempts : Nat
  delays : List Nat
deriving DecidableEq, Repr

/-- The body of `spotifyFetch`'s `for (let attempt = 0; attempt <= maxRetries;
attempt++)` loop.  `outcomes i` is what the fetch on attempt `i` produced;
`fuel` counts the loop iterations still permitted (`maxRetries + 1 - attempt`
at entry), so exhausting it is the loop falling through (unreachable, since
every attempt with `attempt == maxRetries` returns or throws). -/
def spotifyFetchGo (outcomes : Nat → AttemptOutcome) :
    (attempt : Nat) → (fuel : Nat) → FetchTrace
  | _, 0 => ⟨.undefinedReturn, 0, []⟩
  | attempt, fuel + 1 =>
    match outcomes attempt with
    | .resp s =>
        if isOkStatus s || attempt == maxRetries then ⟨.response s, 1, []⟩
        else if !shouldRetryStatus s then ⟨.response s, 1, []⟩
        else
          let rest := spotifyFetchGo outcomes (attempt + 1) fuel
          ⟨rest.result, rest.attempts + 1, backoffDelayMs attempt :: rest.delays⟩
    | .netErr e =>
        if !isRetryableError e || attempt == maxRetries then ⟨.thrown e, 1, []⟩
        else
          let rest := spotifyFetchGo outcomes (attempt + 1) fuel
          ⟨rest.result, rest.attempts + 1, backoffDelayMs attempt :: rest.delays⟩

/-- One logical `spotifyFetch` call, started at attempt 0. -/
def spotifyFetch (outcomes : Nat → AttemptOutcome) : FetchTrace :=
  spotifyFetchGo outcomes 0 (maxRetries + 1)

/-- An attempt outcome the loop retries (when attempts remain). -/
def retryableOutcome : AttemptOutcome → Bool
  | .resp s => shouldRetryStatus s
  | .netErr e => isRetryableError e

/-! ## `JSON.parse` and `parseSpotifyErrorResponse`

`parseSpotifyErrorResponse` calls `JSON.parse` on the body text, so an
executable JSON parser is embedded: JSON values, whitespace, strings with
escapes, numbers (kept as their lexeme parts; only truthiness of the value
is ever consulted), arrays and objects.  Object member lists keep every
pair; lookup takes the last binding for a key, as a JS object literal
would. -/

/-- Whitespace for JS `String.prototype.trim` (the ASCII part: space, tab,
line feed, carriage return, vertical tab, form feed; the bodies involved
are ASCII). -/
def isJsTrimWs (c : Char) : Bool :=
  c == ' ' || c == '\t' || c == '\n' || c == '\r'
    || c == Char.ofNat 11 || c == Char.ofNat 12

/-- JS `s.trim()`: strip leading and trailing whitespace. -/
def jsTrim (s : String) : String :=
  String.mk (((s.toList.dropWhile isJsTrimWs).reverse.dropWhile isJsTrimWs).reverse)

/-- A parsed JSON value.  Numbers keep sign, integer digits, fraction
digits and exponent rather than a computed value. -/
inductive Json
  | jnull
  | jbool (b : Bool)
  | jnum (neg : Bool) (intPart : List Char) (fracPart : List Char)
      (expPart : Option (Bool × List Char))
  | jstr (s : String)
  | jarr (elems : List Json)
  | jobj (fields : List (String × Json))
deriving Repr

/-- JSON insignificant whitespace: space, tab, line feed, carriage return. -/
def isJsonWs (c : Char) : Bool := c == ' ' || c == '\t' || c == '\n' || c == '\r'

/-- Drop leading JSON whitespace. -/
def skipJsonWs : List Char → List Char
  | [] => []
  | c :: rest => if isJsonWs c then skipJsonWs rest else c :: rest

/-- The value of a hexadecimal digit. -/
def hexVal (c : Char) : Option Nat :=
  if c.isDigit then some (c.toNat - 48)
  else if 97 ≤ c.toNat && c.toNat ≤ 102 then some (c.toNat - 87)
  else if 65 ≤ c.toNat && c.toNat ≤ 70 then some (c.toNat - 55)
  else none

/-- The character a one-letter JSON escape stands for. -/
def escChar : Char → Option Char
  | '"' => some '"'
  | '\\' => some '\\'
  | '/' => some '/'
  | 'b' => some (Char.ofNat 8)
  | 'f' => some (Char.ofNat 12)
  | 'n' => some '\n'
  | 'r' => some '\r'
  | 't' => some '\t'
  | _ => none

/-- Parse the remainder of a JSON string (the opening quote already
consumed): the content characters and the input left after the closing
quote.  Raw control characters are rejected, as `JSON.parse` rejects them. -/
def parseJsonString : List Char → Option (List Char × List Char)
  | [] => none
  | c :: rest =>
    if c == '"' then some ([], rest)
    else if c == '\\' then
      match rest with
      | [] => none
      | e :: rest2 =>
        if e == 'u' then
          match rest2 with
          | h1 :: h2 :: h3 :: h4 :: rest3 =>
            match hexVal h1, hexVal h2, hexVal h3, hexVal h4 with
            | some a, some b, some c2, some d =>
                (parseJsonString rest3).map fun p =>
                  (Char.ofNat (((a * 16 + b) * 16 + c2) * 16 + d) :: p.1, p.2)
            | _, _, _, _ => none
          | _ => none
        else
          match escChar e with
          | some ec => (parseJsonString rest2).map fun p => (ec :: p.1, p.2)
          | none => none
    else if c.toNat < 32 then none
    else (parseJsonString rest).map fun p => (c :: p.1, p.2)

/-- Split a leading run of decimal digits from the rest. -/
def takeDigits : List Char → List Char × List Char
  | [] => ([], [])
  | c :: rest =>
    if c.isDigit then
      let p := takeDigits rest
      (c :: p.1, p.2)
    else ([], c :: rest)

/-- Parse an optional JSON fraction part (`.` followed by one or more
digits). -/
def parseFracPart : List Char → Option (List Char × List Char)
  | '.' :: rest =>
      match takeDigits rest with
      | ([], _) => none
      | (ds, l2) => some (ds, l2)
  | l => some ([], l)

/-- Parse an optional JSON exponent part (`e`/`E`, optional sign, one or
more digits). -/
def parseExpPart : List Char → Option (Option (Bool × List Char) × List Char)
  | [] => some (none, [])
  | c :: rest =>
    if c == 'e' || c == 'E' then
      let signed : Bool × List Char :=
        match rest with
        | '+' :: r => (false, r)
        | '-' :: r => (true, r)
        | _ => (false, rest)
      match takeDigits signed.2 with
      | ([], _) => none
      | (ds, l2) => some (some (signed.1, ds), l2)
    else some (none, c :: rest)

/-- Parse a JSON number.  A leading `0` must stand alone in the integer
part (further digits are left unconsumed, so surrounding structure rejects
them, as `JSON.parse` rejects leading zeros). -/
def parseNumber (l : List Char) : Option (Json × List Char) :=
  let signed : Bool × List Char :=
    match l with
    | '-' :: rest => (true, rest)
    | _ => (false, l)
  match signed.2 with
  | [] => none
  | c :: rest =>
    if c == '0' then
      match parseFracPart rest with
      | none => none
      | some (frac, l2) =>
        match parseExpPart l2 with
        | none => none
        | some (ex, l3) => some (.jnum signed.1 ['0'] frac ex, l3)
    else if c.isDigit then
      let p := takeDigits rest
      match parseFracPart p.2 with
      | none => none
      | some (frac, l2) =>
        match parseExpPart l2 with
        | none => none
        | some (ex, l3) => some (.jnum signed.1 (c :: p.1) frac ex, l3)
    else none

mutual

/-- Parse one JSON value (fuel bounds the recursion depth; the initial fuel
supplied by `jsonParse` exceeds what any input of its length can use). -/
def parseValue (fuel : Nat) (l : List Char) : Option (Json × List Char) :=
  match fuel with
  | 0 => none
  | fuel + 1 =>
    match skipJsonWs l with
    | [] => none
    | c :: rest =>
      if c == 'n' then
        match rest with
        | 'u' :: 'l' :: 'l' :: r => some (.jnull, r)
        | _ => none
      else if c == 't' then
        match rest with
        | 'r' :: 'u' :: 'e' :: r => some (.jbool true, r)
        | _ => none
      else if c == 'f' then
        match rest with
        | 'a' :: 'l' :: 's' :: 'e' :: r => some (.jbool false, r)
        | _ => none
      else if c == '"' then
        (parseJsonString rest).map fun p => (.jstr (String.mk p.1), p.2)
      else if c == '[' then
        match skipJsonWs rest with
        | ']' :: r => some (.jarr [], r)
        | l2 => (parseElems fuel l2).map fun p => (.jarr p.1, p.2)
      else if c == '\x7b' then
        match skipJsonWs rest with
        | '\x7d' :: r => some (.jobj [], r)
        | l2 => (parseMembers fuel l2).map fun p => (.jobj p.1, p.2)
      else if c == '-' || c.isDigit then parseNumber (c :: rest)
      else none
termination_by structural fuel

/-- Parse the comma-separated elements of a non-empty JSON array, up to and
including the closing bracket. -/
def parseElems (fuel : Nat) (l : List Char) : Option (List Json × List Char) :=
  match fuel with
  | 0 => none
  | fuel + 1 =>
    match parseValue fuel l with
    | none => none
    | some (v, r) =>
      match skipJsonWs r with
      | ',' :: r2 => (parseElems fuel r2).map fun p => (v :: p.1, p.2)
      | ']' :: r2 => some ([v], r2)
      | _ => none
termination_by structural fuel

/-- Parse the members of a non-empty JSON object, up to and including the
closing brace. -/
def parseMembers (fuel : Nat) (l : List Char) :
    Option (List (String × Json) × List Char) :=
  match fuel with
  | 0 => none
  | fuel + 1 =>
    match skipJsonWs l with
    | '"' :: r =>
      match parseJsonString r with
      | none => none
      | some (key, r2) =>
        match skipJsonWs r2 with
        | ':' :: r3 =>
          match parseValue fuel r3 with
          | none => none
          | some (v, r4) =>
            match skipJsonWs r4 with
            | ',' :: r5 =>
                (parseMembers fuel r5).map fun p =>
                  ((String.mk key, v) :: p.1, p.2)
            | '\x7d' :: r5 => some ([(String.mk key, v)], r5)
            | _ => none
        | _ => none
    | _ => none
termination_by structural fuel

end

/-- `JSON.parse(s)`: parse one value and require only whitespace after it. -/
def jsonParse (s : String) : Option Json :=
  match parseValue (2 * s.length + 2) s.toList with
  | some (v, rest) => if skipJsonWs rest == [] then some v else none
  | none => none

/-- Last binding for a key in an object member list (later members of a JS
object literal overwrite earlier ones). -/
def lookupLast (fields : List (String × Json)) (key : String) : Option Json :=
  fields.foldl (fun acc p => if p.1 == key then some p.2 else acc) none

/-- JS member access `v[key]` on a parsed JSON value: `undefined` (`none`)
unless `v` is an object with that key. -/
def jsonGet : Json → String → Option Json
  | .jobj fields, key => lookupLast fields key
  | _, _ => none

/-- All characters of a digit run are `0`. -/
def allZeroDigits (ds : List Char) : Bool := ds.all (· == '0')

/-- JS truthiness of a parsed JSON value (a number is falsy iff its value
is zero; arrays and objects are always truthy). -/
def jsTruthy : Json → Bool
  | .jnull => false
  | .jbool b => b
  | .jnum _ ip fp _ => !(allZeroDigits ip && allZeroDigits fp)
  | .jstr s => s ≠ ""
  | .jarr _ => true
  | .jobj _ => true

/-- Result of evaluating the JS expression `errorData.error?.message`:
either the access threw a TypeError, or it evaluated to a value
(`undefined` as `none`). -/
inductive NestedMessageAccess
  | typeError
  | value (m : Option Json)
deriving Repr

/-- `errorData.error?.message`.  When `errorData` is `null` (the body was
the JSON text `null`), reading `.error` from it throws a TypeError — the
optional chain guards only the `.message` access.  On any other base the
`.error` access yields `undefined` (primitives are wrapped, objects are
looked up), and `?.message` is `undefined` unless `.error` came out as an
object with a `message` member. -/
def extractNestedMessage (errorData : Json) : NestedMessageAccess :=
  match errorData with
  | .jnull => .typeError
  | _ =>
      .value (match jsonGet errorData "error" with
              | some e => jsonGet e "message"
              | none => none)

/-- `parseSpotifyErrorResponse(response, fallbackMessage)`.  `bodyText` is
what `response.text()` resolved to (`none` when reading the body rejected,
which the outer `catch` turns into the fallback).  The inner `catch`
assigns the raw trimmed text both when `JSON.parse` throws and when the
`errorData.error?.message` access throws on a `null` base.  The returned
JS value is a string except when a truthy non-string `error.message` is
extracted, so the result is kept as a `Json` value. -/
def parseSpotifyErrorResponse (bodyText : Option String)
    (fallbackMessage : String) : Json :=
  match bodyText with
  | none => .jstr fallbackMessage
  | some t =>
    if t ≠ "" ∧ jsTrim t ≠ "" then
      match jsonParse t with
      | some errorData =>
        match extractNestedMessage errorData with
        | .typeError => .jstr (jsTrim t)
        | .value (some m) => if jsTruthy m then m else .jstr fallbackMessage
        | .value none => .jstr fallbackMessage
      | none => .jstr (jsTrim t)
    else .jstr fallbackMessage

/-! ## The two read-through caches and their route handlers

`/api/playback` and `/api/spotify-queue` each keep a module-level cache
`{ data, timestamp, ttl }` and consult it before calling `spotifyFetch`.
The handlers are embedded as state transformers on the cache; the upstream
call each would make on a cache miss is an explicit outcome parameter. -/

/-- A cache record `{ data, timestamp, ttl }`; `data` is `null` or a
payload (an object, hence truthy whenever set). -/
structure SpotifyCache (α : Type) where
  data : Option α
  timestamp : Int
  ttl : Int
deriving DecidableEq, Repr

/-- The track object the playback handler builds from `data.item`. -/
structure PlaybackTrack where
  name : String
  artist : String
  albumArt : Option String
deriving DecidableEq, Repr

/-- The payload the playback handler caches and serves. -/
structure PlaybackResult where
  playing : Bool
  device : Option String
  track : Option PlaybackTrack
deriving DecidableEq, Repr

/-- The `{ playing: false, device: null }` payload built on a 204 response
(the `track` member is absent; absent and `null` render alike). -/
def noPlaybackResult : PlaybackResult := ⟨false, none, none⟩

/-- A track object of the queue payload. -/
structure QueueTrack where
  id : Option String
  name : String
  artist : String
  album : String
  albumArt : Option String
  duration : Int
deriving DecidableEq, Repr

/-- The payload the queue handler caches and serves. -/
structure QueueResult where
  currentlyPlaying : Option QueueTrack
  queue : List QueueTrack
deriving DecidableEq, Repr

/-- The `{ queue: [], currentlyPlaying: null }` payload built on a 404. -/
def emptyQueueResult : QueueResult := ⟨none, []⟩

/-- `playbackCache` / `spotifyQueueCache` at module load:
`{ data: null, timestamp: 0, ttl: 15000 }`. -/
def cacheInit (α : Type) : SpotifyCache α := ⟨none, 0, 15000⟩

/-- What the upstream call on a cache miss came to: `spotifyFetch` threw
(`exc`), or a response arrived with the given status and — when the handler
goes on to read it — the payload its body formats to (`none` when reading
or formatting the body would throw; both land in the handler's `catch`). -/
inductive UpstreamOutcome (α : Type)
  | exc
  | resp (status : Nat) (body : Option α)
deriving DecidableEq, Repr

/-- What the handler sent: the cached payload, a freshly fetched payload, an
error with the upstream status, or the catch-all 500. -/
inductive RouteResult (α : Type)
  | cached (v : α)
  | fresh (v : α)
  | errorStatus (s : Nat)
  | serverError
deriving DecidableEq, Repr

/-- A route handler invocation: what was sent, the cache afterwards, and how
many upstream fetches were made. -/
structure RouteOutcome (α : Type) where
  result : RouteResult α
  cache : SpotifyCache α
  fetchCalls : Nat
deriving DecidableEq, Repr

/-- The cache check both handlers open with:
`isCacheValid = cache.data && (now - cache.timestamp) < cache.ttl`,
yielding the payload served on a hit. -/
def cacheLookup (now : Int) (c : SpotifyCache α) : Option α :=
  match c.data with
  | some v => if now - c.timestamp < c.ttl then some v else none
  | none => none

/-- The `GET /api/playback` handler body (after `ensureToken`): serve the
cache when valid; otherwise fetch `/me/player`; a 204 stores and serves
`{ playing: false, device: null }`; a non-ok response is forwarded as an
error without touching the cache; an ok body is formatted, stored and
served; a thrown fetch or body read lands in the `catch` as a 500. -/
def playbackRoute (now : Int) (c : SpotifyCache PlaybackResult)
    (fetch : UpstreamOutcome PlaybackResult) : RouteOutcome PlaybackResult :=
  match cacheLookup now c with
  | some v => ⟨.cached v, c, 0⟩
  | none =>
    match fetch with
    | .exc => ⟨.serverError, c, 1⟩
    | .resp status body =>
      if status == 204 then
        ⟨.fresh noPlaybackResult, { c with data := some noPlaybackResult, timestamp := now }, 1⟩
      else if !isOkStatus status then ⟨.errorStatus status, c, 1⟩
      else
        match body with
        | none => ⟨.serverError, c, 1⟩
        | some v => ⟨.fresh v, { c with data := some v, timestamp := now }, 1⟩

/-- The `GET /api/spotify-queue` handler body (after `ensureToken`): serve
the cache when valid; otherwise fetch `/me/player/queue`; a 404 stores
`{ queue: [], currentlyPlaying: null }` in the cache and answers 404
"no active device"; any other non-ok response is forwarded as an error
without touching the cache; an ok body is formatted, stored and served; a
thrown fetch or body read lands in the `catch` as a 500. -/
def spotifyQueueRoute (now : Int) (c : SpotifyCache QueueResult)
    (fetch : UpstreamOutcome QueueResult) : RouteOutcome QueueResult :=
  match cacheLookup now c with
  | some v => ⟨.cached v, c, 0⟩
  | none =>
    match fetch with
    | .exc => ⟨.serverError, c, 1⟩
    | .resp status body =>
      if status == 404 then
        ⟨.errorStatus 404, { c with data := some emptyQueueResult, timestamp := now }, 1⟩
      else if !isOkStatus status then ⟨.errorStatus status, c, 1⟩
      else
        match body with
        | none => ⟨.serverError, c, 1⟩
        | some v => ⟨.fresh v, { c with data := some v, timestamp := now }, 1⟩

/-! ## OAuth callback handling and the loopback callback server -/

/-- How the `exchangeCodeForTokens` call a callback handler makes would
come out (`error` carries the JS failure reason string). -/
inductive ExchangeOutcome
  | success
  | failure (error : String)
deriving DecidableEq, Repr

/-- How a callback handler answered. -/
inductive CallbackResult
  | wrongEndpoint
  | invalidState
  | upstreamError (e : String)
  | noCode
  | exchangeSuccess
  | exchangeFailure (e : String)
deriving DecidableEq, Repr

/-- A callback handler invocation: its answer and how many times it invoked
`exchangeCodeForTokens`. -/
structure CallbackOutcome where
  result : CallbackResult
  exchangeCalls : Nat
deriving DecidableEq, Repr

/-- The CSRF comparison `state !== currentOAuthState`, negated.  A received
`state` query parameter is a string or absent (`undefined`); the stored
`currentOAuthState` is a string or `null`; under strict JS equality the two
absences differ, so equality holds only between identical strings. -/
def stateMatches (received stored : Option String) : Bool :=
  match received, stored with
  | some r, some s => r == s
  | _, _ => false

/-- The dynamic-port `/callback` handler registered inside
`startOAuthCallbackServer`: reject on state mismatch before anything else,
then on an `error` parameter, then on a missing `code`, else exchange. -/
def dynamicCallback (stored : Option String) (code err state : Option String)
    (exchange : ExchangeOutcome) : CallbackOutcome :=
  if !stateMatches state stored then ⟨.invalidState, 0⟩
  else if strTruthy err then ⟨.upstreamError (err.getD ""), 0⟩
  else if !strTruthy code then ⟨.noCode, 0⟩
  else
    match exchange with
    | .success => ⟨.exchangeSuccess, 1⟩
    | .failure e => ⟨.exchangeFailure e, 1⟩

/-- The main app's static `GET /callback` handler: in dynamic-port mode it
answers 400 at once; otherwise it runs the same state check, error check,
code check and exchange as the dynamic handler. -/
def staticCallback (useDynamicPort : Bool) (stored : Option String)
    (code err state : Option String) (exchange : ExchangeOutcome) :
    CallbackOutcome :=
  if useDynamicPort then ⟨.wrongEndpoint, 0⟩
  else if !stateMatches state stored then ⟨.invalidState, 0⟩
  else if strTruthy err then ⟨.upstreamError (err.getD ""), 0⟩
  else if !strTruthy code then ⟨.noCode, 0⟩
  else
    match exchange with
    | .success => ⟨.exchangeSuccess, 1⟩
    | .failure e => ⟨.exchangeFailure e, 1⟩

/-- The host argument of `callbackApp.listen(0, '127.0.0.1', ...)`. -/
def oauthListenHost : String := "127.0.0.1"

/-- The port argument of `callbackApp.listen(0, '127.0.0.1', ...)`: 0 asks
the OS to assign one. -/
def oauthListenPort : Nat := 0

/-- State of the module-level `oauthCallbackPort` slot. -/
structure OAuthServerState where
  port : Option Nat
deriving DecidableEq, Repr

/-- The `listen` callback of `startOAuthCallbackServer`: it runs once the
server is listening, reads `assignedPort` back from the bound socket
(`oauthCallbackServer.address().port`), stores it in `oauthCallbackPort`
and renders the callback URL it logs and resolves with. -/
def startOAuthCallbackServerListen (assignedPort : Nat) :
    OAuthServerState × String :=
  (⟨some assignedPort⟩,
   "http://127.0.0.1:" ++ toString assignedPort ++ "/callback")

/-- `getSpotifyRedirectUri()`: the configured static URI unless dynamic
loopback mode is on, in which case the URI is built from the stored
callback port, or `null` when the callback server is not running. -/
def getSpotifyRedirectUri (useDynamicPort : Bool) (staticUri : Option String)
    (cbPort : Option Nat) : Option String :=
  if !useDynamicPort then staticUri
  else
    match cbPort with
    | some p => some ("http://127.0.0.1:" ++ toString p ++ "/callback")
    | none => none

/-! ## Theorems -/

/-- Claim C2: `refreshAccessToken` fails without any upstream request when no
refresh token is held; on a non-success status or a network error it fails
leaving all three token fields exactly as they were; on a success response
that omits a new refresh token it keeps the stored refresh token while
replacing the access token and expiry from the response. -/
theorem refreshAccessToken_failure_and_preservation (now : Int)
    (st : TokenRecord) (resp : RefreshOutcome) :
    (st.refreshToken = none → refreshAccessToken now st resp = ⟨false, st, 0⟩) ∧
    (∀ s, resp = .httpError s →
      (refreshAccessToken now st resp).success = false ∧
      (refreshAccessToken now st resp).st = st) ∧
    (resp = .netError →
      (refreshAccessToken now st resp).success = false ∧
      (refreshAccessToken now st resp).st = st) ∧
    (∀ tok expiresIn, resp = .ok tok expiresIn none →
      strTruthy st.refreshToken = true →
      (refreshAccessToken now st resp).success = true ∧
      (refreshAccessToken now st resp).st.refreshToken = st.refreshToken ∧
      (refreshAccessToken now st resp).st.accessToken = some tok ∧
      (refreshAccessToken now st resp).st.expiresAt
        = some (now + expiresIn * 1000)) := by
  refine ⟨fun h => ?_, fun s h => ?_, fun h => ?_, fun tok expiresIn h hrt => ?_⟩
  · simp [refreshAccessToken, h, strTruthy]
  · subst h
    by_cases hrt : strTruthy st.refreshToken <;> simp [refreshAccessToken, hrt]
  · subst h
    by_cases hrt : strTruthy st.refreshToken <;> simp [refreshAccessToken, hrt]
  · subst h
    cases hrtk : st.refreshToken with
    | none => rw [hrtk] at hrt; exact absurd hrt (by simp [strTruthy])
    | some r =>
      have hr : r ≠ "" := by
        rw [hrtk] at hrt
        simpa [strTruthy] using hrt
      simp [refreshAccessToken, strTruthy, hrtk, hr]

/-- Claim C3: whenever a refresh attempt fails inside the `ensureToken`
guard, the whole token record is replaced by `{ accessToken: null,
refreshToken: null, expiresAt: null }` in one assignment, and every
session-expired disposition leaves all three fields simultaneously absent —
never a partially cleared record. -/
theorem ensureToken_atomic_clear (now : Int) (st : TokenRecord)
    (resp : RefreshOutcome) :
    ((ensureToken now st resp).result = .sessionExpired →
      (ensureToken now st resp).st = ⟨none, none, none⟩) ∧
    (strTruthy st.accessToken = true → needsRefreshCheck now st = true →
      (refreshAccessToken now st resp).success = false →
      ensureToken now st resp = ⟨.sessionExpired, ⟨none, none, none⟩, 1⟩) := by
  constructor
  · intro h
    by_cases ha : strTruthy st.accessToken
    · by_cases hr : needsRefreshCheck now st
      · by_cases hs : (refreshAccessToken now st resp).success
        · simp [ensureToken, ha, hr, hs] at h
        · simp [ensureToken, ha, hr, hs]
      · simp [ensureToken, ha, hr] at h
    · simp [ensureToken, ha] at h
  · intro ha hr hs
    simp [ensureToken, ha, hr, hs]

/-- Claim C5 counterexample: with an access token present but already
expired (`expiresAt = 0`, `now = 1000000`), the store is not usable, yet
`ensureToken` does not reject the request as not authenticated — it
refreshes and lets the request proceed.  The code checks only the presence
of an access token before taking the refresh path. -/
theorem ensureToken_expired_token_proceeds :
    isAuthenticated 1000000 ⟨some "tok", some "rt", some 0⟩ = false ∧
    (ensureToken 1000000 ⟨some "tok", some "rt", some 0⟩
        (.ok "new" 3600 none)).result = .proceed ∧
    (ensureToken 1000000 ⟨some "tok", some "rt", some 0⟩
        (.ok "new" 3600 none)).result ≠ .notAuthenticated := by decide

/-- Claim C5 (amended): `ensureToken` rejects as not authenticated exactly
when no (truthy) access token is present — expiry is not consulted for that
rejection; with an access token, when `now ≥ expiresAt − buffer` (so in
particular for expired tokens) it invokes a refresh: a failed refresh
clears the store and rejects as session expired, a successful one lets the
request proceed with the refreshed store; otherwise the request proceeds
untouched with no refresh. -/
theorem ensureToken_guard_characterization (now : Int) (st : TokenRecord)
    (resp : RefreshOutcome) :
    (strTruthy st.accessToken = false →
      ensureToken now st resp = ⟨.notAuthenticated, st, 0⟩) ∧
    (strTruthy st.accessToken = true → needsRefreshCheck now st = false →
      ensureToken now st resp = ⟨.proceed, st, 0⟩) ∧
    (strTruthy st.accessToken = true → needsRefreshCheck now st = true →
      (refreshAccessToken now st resp).success = false →
      ensureToken now st resp = ⟨.sessionExpired, ⟨none, none, none⟩, 1⟩) ∧
    (strTruthy st.accessToken = true → needsRefreshCheck now st = true →
      (refreshAccessToken now st resp).success = true →
      ensureToken now st resp
        = ⟨.proceed, (refreshAccessToken now st resp).st, 1⟩) := by
  refine ⟨fun ha => ?_, fun ha hr => ?_, fun ha hr hs => ?_, fun ha hr hs => ?_⟩
  · simp [ensureToken, ha]
  · simp [ensureToken, ha, hr]
  · simp [ensureToken, ha, hr, hs]
  · simp [ensureToken, ha, hr, hs]

/-- Claim C9: `isAuthenticated` is pure and true exactly when a (truthy)
access token is present and the current time is strictly before the stored
expiry; the guard's needs-refresh condition holds exactly when
`now ≥ expiresAt − TOKEN_REFRESH_BUFFER_MS`, so every token within the
5-minute buffer of its expiry takes the refresh path, even while
`isAuthenticated` is still true. -/
theorem isAuthenticated_and_refresh_buffer (now e : Int) (st : TokenRecord)
    (resp : RefreshOutcome) (hnow : 0 ≤ now) :
    (isAuthenticated now st = true ↔
      strTruthy st.accessToken = true ∧ ∃ x, st.expiresAt = some x ∧ now < x) ∧
    (st.expiresAt = some e →
      (needsRefreshCheck now st = true ↔ now ≥ e - TOKEN_REFRESH_BUFFER_MS)) ∧
    (st.expiresAt = some e → e - now < TOKEN_REFRESH_BUFFER_MS →
      needsRefreshCheck now st = true) ∧
    (st.expiresAt = some e → e - now < TOKEN_REFRESH_BUFFER_MS →
      strTruthy st.accessToken = true →
      (ensureToken now st resp).refreshCalls = 1) := by
  refine ⟨?_, fun he => ?_, fun he hlt => ?_, fun he hlt ha => ?_⟩
  · cases hexp : st.expiresAt with
    | none => simp [isAuthenticated, hexp, intTruthy, jsNum]
    | some x =>
      constructor
      · intro h
        simp only [isAuthenticated, hexp, intTruthy, jsNum, Bool.and_eq_true,
          decide_eq_true_eq] at h
        exact ⟨h.1, x, rfl, h.2.2⟩
      · rintro ⟨ha, y, hy, hxy⟩
        obtain rfl : x = y := by simpa using hy
        have hx0 : x ≠ 0 := by omega
        simp [isAuthenticated, hexp, intTruthy, jsNum, ha, hxy, hx0]
  · simp [needsRefreshCheck, he, jsNum]
  · simp only [needsRefreshCheck, he, jsNum, ge_iff_le, decide_eq_true_eq]
    have : TOKEN_REFRESH_BUFFER_MS = 300000 := by decide
    omega
  · have hr : needsRefreshCheck now st = true := by
      simp only [needsRefreshCheck, he, jsNum, ge_iff_le, decide_eq_true_eq]
      have : TOKEN_REFRESH_BUFFER_MS = 300000 := by decide
      omega
    by_cases hs : (refreshAccessToken now st resp).success <;>
      simp [ensureToken, ha, hr, hs]

/-- Claim C9 witness: a token 100 s before its expiry (inside the 5-minute
buffer) at `now = 1000` is still authenticated and yet takes the refresh
path. -/
theorem isAuthenticated_and_refresh_buffer_witness :
    isAuthenticated 1000 ⟨some "tok", some "rt", some 101000⟩ = true ∧
    needsRefreshCheck 1000 ⟨some "tok", some "rt", some 101000⟩ = true ∧
    (ensureToken 1000 ⟨some "tok", some "rt", some 101000⟩
        (.ok "new" 3600 none)).refreshCalls = 1 := by
  have h := isAuthenticated_and_refresh_buffer 1000 101000
    ⟨some "tok", some "rt", some 101000⟩ (.ok "new" 3600 none) (by decide)
  refine ⟨?_, ?_, ?_⟩
  · exact h.1.mpr ⟨by decide, 101000, rfl, by decide⟩
  · exact h.2.2.1 rfl (by decide)
  · exact h.2.2.2 rfl (by decide) (by decide)

/-- Claim C4: any OAuth callback whose `state` query parameter is not the
exact string issued for the current attempt — including when no state was
ever issued, since JS strict inequality holds between an absent parameter
and a `null` slot — is rejected at once by both callback handlers, with
zero invocations of the token-exchange function. -/
theorem callback_csrf_rejection (stored code err state : Option String)
    (exch : ExchangeOutcome) (h : stateMatches state stored = false) :
    dynamicCallback stored code err state exch = ⟨.invalidState, 0⟩ ∧
    staticCallback false stored code err state exch = ⟨.invalidState, 0⟩ := by
  simp [dynamicCallback, staticCallback, h]

/-- Claim C4 witness: a callback arriving with no `state` parameter while no
login has issued one (the stored slot is `null`) is rejected with zero
exchange calls. -/
theorem callback_csrf_rejection_witness :
    dynamicCallback none (some "c") none none .success = ⟨.invalidState, 0⟩ ∧
    staticCallback false none (some "c") none none .success
      = ⟨.invalidState, 0⟩ :=
  callback_csrf_rejection none (some "c") none none .success (by decide)

/-- Claim C10: the dynamic OAuth callback server is bound to the loopback
literal `127.0.0.1` (never a wildcard or the hostname `localhost`) on a
requested port of 0; the assigned port is the one the `listen` callback
reads back from the bound socket, and the redirect URI issued from it is
exactly `http://127.0.0.1:{assignedPort}/callback`. -/
theorem loopback_binding (p : Nat) :
    oauthListenHost = "127.0.0.1" ∧
    oauthListenHost ≠ "0.0.0.0" ∧
    oauthListenHost ≠ "::" ∧
    oauthListenHost ≠ "localhost" ∧
    oauthListenPort = 0 ∧
    (startOAuthCallbackServerListen p).1.port = some p ∧
    (startOAuthCallbackServerListen p).2
      = "http://127.0.0.1:" ++ toString p ++ "/callback" ∧
    getSpotifyRedirectUri true none (startOAuthCallbackServerListen p).1.port
      = some ("http://127.0.0.1:" ++ toString p ++ "/callback") := by
  exact ⟨rfl, by decide, by decide, by decide, rfl, rfl, rfl, rfl⟩

/-- Claim C6 counterexample: the body `{"code":404}` parses as JSON but has
no nested `error.message` field; the claim says the raw trimmed text is
returned, but the code keeps the caller-supplied fallback in that branch
(only a throw inside the try — a `JSON.parse` failure, or the member access
on a `null` base — falls back to the raw text). -/
theorem parseSpotifyErrorResponse_missing_field_counterexample :
    (jsonParse "\x7b\"code\":404\x7d").isSome = true ∧
    jsTrim "\x7b\"code\":404\x7d" = "\x7b\"code\":404\x7d" ∧
    parseSpotifyErrorResponse (some "\x7b\"code\":404\x7d") "Request failed"
      = .jstr "Request failed" ∧
    ¬ parseSpotifyErrorResponse (some "\x7b\"code\":404\x7d") "Request failed"
      = .jstr "\x7b\"code\":404\x7d" := by
  refine ⟨rfl, rfl, rfl, fun h => ?_⟩
  rw [show parseSpotifyErrorResponse (some "\x7b\"code\":404\x7d")
      "Request failed" = .jstr "Request failed" from rfl] at h
  simp at h

/-- Claim C6 (amended): a JSON body `{"error":{"message":"X"}}` yields
exactly `"X"`; a body that fails to parse as JSON yields the raw trimmed
body text, and so does the body `null` — it parses, but the member access
on the `null` result throws inside the same try, landing in the same
raw-text catch; a body that parses as JSON to anything other than `null`
but lacks a truthy nested `error.message` field yields the caller-supplied
fallback (not the raw text); an empty, whitespace-only or unreadable body
yields the fallback. -/
theorem parseSpotifyErrorResponse_characterization (t fb : String) :
    parseSpotifyErrorResponse
      (some "\x7b\"error\":\x7b\"message\":\"X\"\x7d\x7d") fb = .jstr "X" ∧
    parseSpotifyErrorResponse (some "plain text") fb = .jstr "plain text" ∧
    parseSpotifyErrorResponse (some "null") fb = .jstr "null" ∧
    parseSpotifyErrorResponse (some "") fb = .jstr fb ∧
    parseSpotifyErrorResponse (some "   ") fb = .jstr fb ∧
    parseSpotifyErrorResponse none fb = .jstr fb ∧
    (jsTrim t = "" → parseSpotifyErrorResponse (some t) fb = .jstr fb) ∧
    (jsTrim t ≠ "" → jsonParse t = none →
      parseSpotifyErrorResponse (some t) fb = .jstr (jsTrim t)) ∧
    (∀ j, jsonParse t = some j → extractNestedMessage j = .typeError →
      jsTrim t ≠ "" →
      parseSpotifyErrorResponse (some t) fb = .jstr (jsTrim t)) ∧
    (∀ j m, jsonParse t = some j → extractNestedMessage j = .value (some m) →
      jsTruthy m = true → jsTrim t ≠ "" →
      parseSpotifyErrorResponse (some t) fb = m) ∧
    (∀ j m, jsonParse t = some j → extractNestedMessage j = .value (some m) →
      jsTruthy m = false →
      parseSpotifyErrorResponse (some t) fb = .jstr fb) ∧
    (∀ j, jsonParse t = some j → extractNestedMessage j = .value none →
      parseSpotifyErrorResponse (some t) fb = .jstr fb) := by
  have hne : ∀ s : String, jsTrim s ≠ "" → s ≠ "" := by
    intro s hs hs0
    exact hs (by rw [hs0]; rfl)
  refine ⟨rfl, rfl, rfl, rfl, rfl, rfl, fun h0 => ?_, fun h0 hp => ?_,
    fun j hp hm h0 => ?_, fun j m hp hm htr h0 => ?_, fun j m hp hm htr => ?_,
    fun j hp hm => ?_⟩
  · by_cases ht : t = ""
    · subst ht; rfl
    · simp [parseSpotifyErrorResponse, ht, h0]
  · simp [parseSpotifyErrorResponse, hne t h0, h0, hp]
  · simp [parseSpotifyErrorResponse, hne t h0, h0, hp, hm]
  · simp [parseSpotifyErrorResponse, hne t h0, h0, hp, hm, htr]
  · by_cases h0 : jsTrim t = ""
    · by_cases ht : t = ""
      · subst ht; rfl
      · simp [parseSpotifyErrorResponse, ht, h0]
    · simp [parseSpotifyErrorResponse, hne t h0, h0, hp, hm, htr]
  · by_cases h0 : jsTrim t = ""
    · by_cases ht : t = ""
      · subst ht; rfl
      · simp [parseSpotifyErrorResponse, ht, h0]
    · simp [parseSpotifyErrorResponse, hne t h0, h0, hp, hm]

/-- Claim C7 counterexample: a queue fetch answered 404 (no active device)
populates the queue cache with the empty-queue payload and stamps it, even
though the 404 failure is what is returned to the caller — the cache is not
left unchanged on that non-success fetch. -/
theorem queue_cache_populated_on_404_counterexample :
    (spotifyQueueRoute 5 (cacheInit QueueResult) (.resp 404 none)).result
      = .errorStatus 404 ∧
    isOkStatus 404 = false ∧
    (spotifyQueueRoute 5 (cacheInit QueueResult) (.resp 404 none)).cache
      ≠ cacheInit QueueResult ∧
    (spotifyQueueRoute 5 (cacheInit QueueResult) (.resp 404 none)).cache.data
      = some emptyQueueResult := by decide

/-- Claim C7 (amended): on a cache miss of the playback cache, any upstream
outcome other than a 2xx response with a readable body or the 204
no-playback response leaves the cache (payload and timestamp) unchanged and
returns the failure to the caller; the same holds for the queue cache for
every failure except a 404, which populates the cache with the empty-queue
payload while the 404 failure is still returned to the caller; both caches
are otherwise populated only by a successful fetch. -/
theorem cache_unchanged_on_failed_fetch (now : Int)
    (cp : SpotifyCache PlaybackResult) (cq : SpotifyCache QueueResult)
    (sp sq : Nat) (bp : Option PlaybackResult) (bq : Option QueueResult) :
    ((playbackRoute now cp .exc).cache = cp) ∧
    (cacheLookup now cp = none → (playbackRoute now cp .exc).result = .serverError) ∧
    ((sp == 204) = false → isOkStatus sp = false →
      (playbackRoute now cp (.resp sp bp)).cache = cp) ∧
    (cacheLookup now cp = none → (sp == 204) = false → isOkStatus sp = false →
      (playbackRoute now cp (.resp sp bp)).result = .errorStatus sp) ∧
    (isOkStatus sp = true → (sp == 204) = false →
      (playbackRoute now cp (.resp sp none)).cache = cp) ∧
    ((spotifyQueueRoute now cq .exc).cache = cq) ∧
    (cacheLookup now cq = none → (spotifyQueueRoute now cq .exc).result = .serverError) ∧
    ((sq == 404) = false → isOkStatus sq = false →
      (spotifyQueueRoute now cq (.resp sq bq)).cache = cq) ∧
    (cacheLookup now cq = none → (sq == 404) = false → isOkStatus sq = false →
      (spotifyQueueRoute now cq (.resp sq bq)).result = .errorStatus sq) ∧
    (isOkStatus sq = true → (sq == 404) = false →
      (spotifyQueueRoute now cq (.resp sq none)).cache = cq) ∧
    (cacheLookup now cq = none →
      spotifyQueueRoute now cq (.resp 404 bq)
        = ⟨.errorStatus 404, ⟨some emptyQueueResult, now, cq.ttl⟩, 1⟩) := by
  refine ⟨?_, fun hc => ?_, fun h1 h2 => ?_, fun hc h1 h2 => ?_,
    fun h1 h2 => ?_, ?_, fun hc => ?_, fun h1 h2 => ?_, fun hc h1 h2 => ?_,
    fun h1 h2 => ?_, fun hc => ?_⟩
  · cases hc : cacheLookup now cp <;> simp [playbackRoute, hc]
  · simp [playbackRoute, hc]
  · cases hc : cacheLookup now cp <;> simp [playbackRoute, hc, h1, h2]
  · simp [playbackRoute, hc, h1, h2]
  · cases hc : cacheLookup now cp <;> simp [playbackRoute, hc, h1, h2]
  · cases hc : cacheLookup now cq <;> simp [spotifyQueueRoute, hc]
  · simp [spotifyQueueRoute, hc]
  · cases hc : cacheLookup now cq <;> simp [spotifyQueueRoute, hc, h1, h2]
  · simp [spotifyQueueRoute, hc, h1, h2]
  · cases hc : cacheLookup now cq <;> simp [spotifyQueueRoute, hc, h1, h2]
  · simp [spotifyQueueRoute, hc]

/-- Claim C8 counterexample: a stale queue payload (age 20 s ≥ ttl 15 s) is
overwritten by a 404 fetch — a fetch that is not successful (the caller
receives the 404 failure) — so a stale payload is not overwritten only by
the next successful fetch. -/
theorem queue_stale_payload_overwritten_by_404_counterexample :
    20000 - (0 : Int) ≥ 15000 ∧
    isOkStatus 404 = false ∧
    (spotifyQueueRoute 20000
        ⟨some ⟨none, [⟨some "id", "name", "artist", "album", none, 1000⟩]⟩,
          0, 15000⟩
        (.resp 404 none)).result = .errorStatus 404 ∧
    (spotifyQueueRoute 20000
        ⟨some ⟨none, [⟨some "id", "name", "artist", "album", none, 1000⟩]⟩,
          0, 15000⟩
        (.resp 404 none)).cache.data = some emptyQueueResult ∧
    some emptyQueueResult
      ≠ some (⟨none, [⟨some "id", "name", "artist", "album", none, 1000⟩]⟩ :
          QueueResult) := by decide

/-- Claim C8 (amended): both caches carry a fixed 15-second ttl; a request
at time `now` is served from the cached payload, without invoking the
upstream fetch, exactly when a payload is present and `now − timestamp`
is strictly below the ttl; a request at or past `timestamp + ttl` (or with
an empty cache) invokes exactly one fresh fetch; staleness alone never
clears a payload — on a failed fetch the old payload stays — and a payload
is overwritten only by a fetch that stores a result: a successful fetch,
or, for the queue cache, the 404 no-device response. -/
theorem cache_freshness_ttl (now : Int) (α : Type)
    (cp : SpotifyCache PlaybackResult) (cq : SpotifyCache QueueResult)
    (fp : UpstreamOutcome PlaybackResult) (fq : UpstreamOutcome QueueResult)
    (vp : PlaybackResult) (vq : QueueResult) :
    ((cacheInit α).ttl = 15000 ∧ (cacheInit α).data = none) ∧
    (cacheLookup now cp = some vp ↔
      cp.data = some vp ∧ now - cp.timestamp < cp.ttl) ∧
    (cacheLookup now cq = some vq ↔
      cq.data = some vq ∧ now - cq.timestamp < cq.ttl) ∧
    (cacheLookup now cp = some vp →
      playbackRoute now cp fp = ⟨.cached vp, cp, 0⟩) ∧
    (cacheLookup now cq = some vq →
      spotifyQueueRoute now cq fq = ⟨.cached vq, cq, 0⟩) ∧
    (now - cp.timestamp ≥ cp.ttl → (playbackRoute now cp fp).fetchCalls = 1) ∧
    (now - cq.timestamp ≥ cq.ttl → (spotifyQueueRoute now cq fq).fetchCalls = 1) ∧
    ((playbackRoute now cp .exc).cache = cp) ∧
    ((spotifyQueueRoute now cq .exc).cache = cq) ∧
    (∀ s, isOkStatus s = true → (s == 204) = false →
      (playbackRoute now cp (.resp s (some vp))).cache.data = some vp ∨
      (playbackRoute now cp (.resp s (some vp))).cache = cp) ∧
    (playbackRoute now cp (.resp 204 none)).cache.ttl = cp.ttl ∧
    (spotifyQueueRoute now cq (.resp 404 none)).cache.ttl = cq.ttl := by
  refine ⟨⟨rfl, rfl⟩, ?_, ?_, fun hc => ?_, fun hc => ?_, fun hs => ?_,
    fun hs => ?_, ?_, ?_, fun s h1 h2 => ?_, ?_, ?_⟩
  · cases hd : cp.data with
    | none => simp [cacheLookup, hd]
    | some w =>
      by_cases ht : now - cp.timestamp < cp.ttl <;>
        simp [cacheLookup, hd, ht]
  · cases hd : cq.data with
    | none => simp [cacheLookup, hd]
    | some w =>
      by_cases ht : now - cq.timestamp < cq.ttl <;>
        simp [cacheLookup, hd, ht]
  · simp [playbackRoute, hc]
  · simp [spotifyQueueRoute, hc]
  · have hc : cacheLookup now cp = none := by
      cases hd : cp.data with
      | none => simp [cacheLookup, hd]
      | some w => simp [cacheLookup, hd]; omega
    cases fp with
    | exc => simp [playbackRoute, hc]
    | resp s b =>
      by_cases h204 : (s == 204) = true
      · simp [playbackRoute, hc, h204]
      · by_cases hok : isOkStatus s = true
        · cases b with
          | none => simp [playbackRoute, hc, h204, hok]
          | some v => simp [playbackRoute, hc, h204, hok]
        · simp [playbackRoute, hc, h204, Bool.eq_false_iff.mpr hok]
  · have hc : cacheLookup now cq = none := by
      cases hd : cq.data with
      | none => simp [cacheLookup, hd]
      | some w => simp [cacheLookup, hd]; omega
    cases fq with
    | exc => simp [spotifyQueueRoute, hc]
    | resp s b =>
      by_cases h404 : (s == 404) = true
      · simp [spotifyQueueRoute, hc, h404]
      · by_cases hok : isOkStatus s = true
        · cases b with
          | none => simp [spotifyQueueRoute, hc, h404, hok]
          | some v => simp [spotifyQueueRoute, hc, h404, hok]
        · simp [spotifyQueueRoute, hc, h404, Bool.eq_false_iff.mpr hok]
  · cases hc : cacheLookup now cp <;> simp [playbackRoute, hc]
  · cases hc : cacheLookup now cq <;> simp [spotifyQueueRoute, hc]
  · cases hc : cacheLookup now cp with
    | some w => right; simp [playbackRoute, hc]
    | none => left; simp [playbackRoute, hc, h1, h2]
  · cases hc : cacheLookup now cp <;> simp [playbackRoute, hc]
  · cases hc : cacheLookup now cq <;> simp [spotifyQueueRoute, hc]

/-! ### Lemmas about single iterations of the `spotifyFetch` retry loop -/

/-- A status the loop retries is never a 2xx success. -/
theorem shouldRetry_not_ok {s : Nat} (h : shouldRetryStatus s = true) :
    isOkStatus s = false := by
  have h1 : (s = 429 ∨ 500 ≤ s) ∨ s = 408 := by
    simpa [shouldRetryStatus] using h
  simp only [isOkStatus, Bool.and_eq_false_iff, decide_eq_false_iff_not]
  omega

/-- An iteration before the last whose attempt outcome is retryable recurses
into the next attempt, prepending its backoff delay. -/
theorem spotifyFetchGo_step_retryable (o : Nat → AttemptOutcome)
    (a b f g : Nat) (hb : a + 1 = b) (hf : f = g + 1)
    (ha : (a == maxRetries) = false) (hr : retryableOutcome (o a) = true) :
    spotifyFetchGo o a f =
      ⟨(spotifyFetchGo o b g).result, (spotifyFetchGo o b g).attempts + 1,
       backoffDelayMs a :: (spotifyFetchGo o b g).delays⟩ := by
  subst hb hf
  cases ho : o a with
  | resp s =>
    have hr1 : shouldRetryStatus s = true := by
      rw [ho] at hr; simpa [retryableOutcome] using hr
    simp [spotifyFetchGo, ho, shouldRetry_not_ok hr1, ha, hr1]
  | netErr e =>
    have hr1 : isRetryableError e = true := by
      rw [ho] at hr; simpa [retryableOutcome] using hr
    simp [spotifyFetchGo, ho, ha, hr1]

/-- The last permitted attempt returns whatever response arrived. -/
theorem spotifyFetchGo_final_resp (o : Nat → AttemptOutcome) (a f g s : Nat)
    (hf : f = g + 1) (ha : (a == maxRetries) = true) (ho : o a = .resp s) :
    spotifyFetchGo o a f = ⟨.response s, 1, []⟩ := by
  subst hf
  simp [spotifyFetchGo, ho, ha]

/-- The last permitted attempt rethrows whatever error it caught. -/
theorem spotifyFetchGo_final_err (o : Nat → AttemptOutcome) (a f g : Nat)
    (e : NetError) (hf : f = g + 1) (ha : (a == maxRetries) = true)
    (ho : o a = .netErr e) :
    spotifyFetchGo o a f = ⟨.thrown e, 1, []⟩ := by
  subst hf
  simp [spotifyFetchGo, ho, ha]

/-- An attempt that yields a non-ok, non-retryable status returns that
response at once. -/
theorem spotifyFetchGo_immediate (o : Nat → AttemptOutcome) (a f g s : Nat)
    (hf : f = g + 1) (hok : isOkStatus s = false)
    (hnr : shouldRetryStatus s = false) (ho : o a = .resp s) :
    spotifyFetchGo o a f = ⟨.response s, 1, []⟩ := by
  subst hf
  by_cases ha : (a == maxRetries) = true
  · simp [spotifyFetchGo, ho, ha]
  · simp [spotifyFetchGo, ho, hok, Bool.eq_false_iff.mpr ha, hnr]

/-- The loop makes at most `fuel` attempts. -/
theorem spotifyFetchGo_attempts_le (o : Nat → AttemptOutcome) :
    ∀ (fuel attempt : Nat), (spotifyFetchGo o attempt fuel).attempts ≤ fuel := by
  intro fuel
  induction fuel with
  | zero => intro a; simp [spotifyFetchGo]
  | succ f ih =>
    intro a
    simp only [spotifyFetchGo]
    cases ho : o a with
    | resp s =>
      by_cases h1 : (isOkStatus s || (a == maxRetries)) = true
      · simp [h1]
      · by_cases h2 : (!shouldRetryStatus s) = true
        · simp [h1, h2]
        · simp only [h1, h2, Bool.false_eq_true, if_false]
          exact Nat.succ_le_succ (ih (a + 1))
    | netErr e =>
      by_cases h1 : ((!isRetryableError e) || (a == maxRetries)) = true
      · simp [h1]
      · simp only [h1, Bool.false_eq_true, if_false]
        exact Nat.succ_le_succ (ih (a + 1))

/-- Claim C1: a first attempt answered 400, 401, 403 or 404 ends the call at
exactly one attempt, returning that response with no backoff waits; when
the first three attempts all come out retryable (status 429, ≥ 500 or 408,
or a timeout/abort or transient network error), the call makes 4 attempts
in all with waits of 1 s, 2 s, 4 s before the retries, returns the final
attempt's response when one arrived, and propagates the final attempt's
error when it was a network-level failure; no call ever makes more than 4
attempts. -/
theorem spotifyFetch_retry_policy (outcomes : Nat → AttemptOutcome) :
    (∀ s, outcomes 0 = .resp s → (s = 400 ∨ s = 401 ∨ s = 403 ∨ s = 404) →
      spotifyFetch outcomes = ⟨.response s, 1, []⟩) ∧
    ((∀ i, i < 3 → retryableOutcome (outcomes i) = true) →
      (spotifyFetch outcomes).attempts = 4 ∧
      (spotifyFetch outcomes).delays = [1000, 2000, 4000] ∧
      (∀ s, outcomes 3 = .resp s →
        (spotifyFetch outcomes).result = .response s) ∧
      (∀ e, outcomes 3 = .netErr e →
        (spotifyFetch outcomes).result = .thrown e)) ∧
    (spotifyFetch outcomes).attempts ≤ 4 := by
  have hmain : spotifyFetch outcomes = spotifyFetchGo outcomes 0 4 := rfl
  refine ⟨?_, ?_, ?_⟩
  · intro s h0 hs
    rw [hmain]
    rcases hs with rfl | rfl | rfl | rfl <;>
      exact spotifyFetchGo_immediate outcomes 0 4 3 _ rfl (by decide)
        (by decide) h0
  · intro h
    have e0 := spotifyFetchGo_step_retryable outcomes 0 1 4 3 rfl rfl
      (by decide) (h 0 (by omega))
    have e1 := spotifyFetchGo_step_retryable outcomes 1 2 3 2 rfl rfl
      (by decide) (h 1 (by omega))
    have e2 := spotifyFetchGo_step_retryable outcomes 2 3 2 1 rfl rfl
      (by decide) (h 2 (by omega))
    cases ho3 : outcomes 3 with
    | resp s3 =>
      have e3 := spotifyFetchGo_final_resp outcomes 3 1 0 s3 rfl (by decide) ho3
      rw [hmain, e0, e1, e2, e3]
      refine ⟨rfl, rfl, fun s hs => ?_, fun e he => ?_⟩
      · injection hs with hs1
        subst hs1
        rfl
      · simp at he
    | netErr e3 =>
      have e3 := spotifyFetchGo_final_err outcomes 3 1 0 e3 rfl (by decide) ho3
      rw [hmain, e0, e1, e2, e3]
      refine ⟨rfl, rfl, fun s hs => ?_, fun e he => ?_⟩
      · simp at hs
      · injection he with he1
        subst he1
        rfl
  · rw [hmain]
    exact spotifyFetchGo_attempts_le outcomes 4 0
